import Mathlib

/-!
Shallow embedding of the Jeedom hub-protocol client
(`lambda/utils/jeedom_client0.py` together with `lambda/schemas.py`).

Python values decoded from JSON are modelled by `PyVal`; the client state
(`self.jee_state : Optional[Union[QuestionState, QuestionStateError]]`) by
`Option JeeState`.  The HTTP layer is scripted by an environment
`Nat → AttemptOutcome` giving the outcome of each attempt of the retry loop
(the request method, URL and headers never influence the control flow of the
source, so they are dropped from the embedding; the POST body is recorded in
the result).  Module configuration (`MAX_RETRIES`, `RETRY_DELAY`,
`language_strings`, `CODE_VERS`) is passed as explicit parameters.
The keys of the external `prompts` module are opaque string constants: only
their use as lookup keys into `language_strings` matters.
-/

/-- A Python value as produced by `json.loads` (floats do not occur in the
paths the claims exercise; JSON numbers are modelled by `Int`). -/
inductive PyVal where
  | none
  | bool (b : Bool)
  | num (n : Int)
  | str (s : String)
  | list (xs : List PyVal)
  | dict (kvs : List (String × PyVal))

/-- Python truthiness (`if not state_data`). -/
def truthy : PyVal → Bool
  | PyVal.none => false
  | PyVal.bool b => b
  | PyVal.num n => n != 0
  | PyVal.str s => s != ""
  | PyVal.list xs => !xs.isEmpty
  | PyVal.dict kvs => !kvs.isEmpty

/-- Whether the value is a Python `str` (`isinstance(value, str)`). -/
def PyVal.isStr : PyVal → Bool
  | PyVal.str _ => true
  | _ => false

/-- Whether the value is a Python `bool` (`isinstance(value, bool)`). -/
def PyVal.isBool : PyVal → Bool
  | PyVal.bool _ => true
  | _ => false

/-- Whether the value is a Python `dict` (only dicts answer `.get`). -/
def PyVal.isDict : PyVal → Bool
  | PyVal.dict _ => true
  | _ => false

/-- Python `dict.get(k)`: the stored value, or `None` when the key is absent
(a Python dict has unique keys, so an association list lookup is faithful). -/
def dictGet (kvs : List (String × PyVal)) (k : String) : PyVal :=
  (List.lookup k kvs).getD PyVal.none

/-- Python `d[k] = v`: replace in place when the key exists (insertion order
is kept, as for a Python dict), append otherwise. -/
def dictSet (kvs : List (String × PyVal)) (k : String) (v : PyVal) :
    List (String × PyVal) :=
  match kvs with
  | [] => [(k, v)]
  | (k', v') :: rest =>
      if k' = k then (k', v) :: rest else (k', v') :: dictSet rest k v

/-- Python `base.update(upd)`: assign every key of `upd` into `base`, in
order. -/
def dictUpdate (base upd : List (String × PyVal)) : List (String × PyVal) :=
  upd.foldl (fun acc p => dictSet acc p.1 p.2) base

/-- Python `language_strings.get(key, dflt)`. -/
def langGet (ls : List (String × String)) (key dflt : String) : String :=
  (List.lookup key ls).getD dflt

/-- Key of the external `prompts` module (opaque; only used for lookups). -/
def ERROR_401 : String := "ERROR_401"

/-- Key of the external `prompts` module (opaque; only used for lookups). -/
def ERROR_404 : String := "ERROR_404"

/-- Key of the external `prompts` module (opaque; only used for lookups). -/
def ERROR_400 : String := "ERROR_400"

/-- Key of the external `prompts` module (opaque; only used for lookups). -/
def ERROR_NETWORK : String := "ERROR_NETWORK"

/-- Key of the external `prompts` module (opaque; only used for lookups). -/
def ERROR_GENERAL : String := "ERROR_GENERAL"

/-- Key of the external `prompts` module (opaque; only used for lookups). -/
def ERROR_CONFIG : String := "ERROR_CONFIG"

/-- Key of the external `prompts` module (opaque; only used for lookups). -/
def ERROR_PARSE : String := "ERROR_PARSE"

/-- Key of the external `prompts` module (opaque; only used for lookups). -/
def OKAY : String := "OKAY"

/-- Python `str.lower()`, as a per-character map over the string's
characters (for the ASCII tokens the coercion compares against this agrees
with Python's lowering). -/
def pyLower (s : String) : String := String.mk (s.data.map Char.toLower)

/-- `JeedomClient._string_to_bool` (`lambda/utils/jeedom_client0.py`,
lines 325-333): a `bool` is returned as is, a non-`str` yields the default,
and a `str` is lowered and tested against `("true", "1", "yes", "oui")`. -/
def string_to_bool (value : PyVal) (dflt : Bool) : Bool :=
  match value with
  | PyVal.bool b => b
  | PyVal.str s =>
      pyLower s == "true" || pyLower s == "1" || pyLower s == "yes" ||
        pyLower s == "oui"
  | _ => dflt

/-- The error kinds enumerated by the specification's Error Classifier. -/
inductive ErrorKind where
  | unauthorized
  | notFound
  | badRequest
  | serverError
  | timeout
  | connectionFailed
  | parseFailure
  | unknown
deriving DecidableEq

/-- The branch selection of `JeedomClient._handle_http_error`
(`jeedom_client0.py`, lines 90-115): 401, then 404, then every other status
`>= 400`; statuses below 400 are not an error.  The codomain is the
specification's `ErrorKind` so that the claims about the classifier can be
stated; the source function has no branch producing `serverError` (statuses
`>= 500` fall into the generic `>= 400` branch).  The lemma
`handleHttpError_classifyStatus` ties this abstraction to the message-level
source function. -/
def classifyStatus (status : Nat) : Option ErrorKind :=
  if status = 401 then some ErrorKind.unauthorized
  else if status = 404 then some ErrorKind.notFound
  else if 400 ≤ status then some ErrorKind.badRequest
  else none

/-- `JeedomClient._handle_http_error` (`jeedom_client0.py`, lines 90-115):
returns the error message for a status `>= 400`, `none` otherwise.  Each
error branch also invokes `post_log` once; that side effect is counted by
the caller (`rwrAux`). -/
def handleHttpError (ls : List (String × String)) (status : Nat) :
    Option String :=
  if status = 401 then
    some ("Error 401: " ++ langGet ls ERROR_401 "Authentication error")
  else if status = 404 then
    some ("Error 404: " ++ langGet ls ERROR_404 "Resource not found")
  else if 400 ≤ status then
    some ("Error " ++ toString status ++ ": " ++
      langGet ls ERROR_400 "Request error")
  else none

/-- `QuestionState` (`lambda/schemas.py`, lines 7-14).  The fields hold
whatever `state.get(...)` returned, so they are `PyVal` (Python dataclasses
do not enforce the annotated types). -/
structure QuestionState where
  event_id : PyVal
  text : PyVal
  suppress_confirmation : Bool
  deviceSerialNumber : PyVal
  textBrut : PyVal

/-- `QuestionState` or `QuestionStateError` (`lambda/schemas.py`); the
client's `jee_state` is an `Option JeeState`. -/
inductive JeeState where
  | active (qs : QuestionState)
  | error (text : String)

/-- Outcome of one HTTP attempt inside `_request_with_retry`: a response
arrived (its body `response.data` being raw bytes, modelled as a list of
byte values), a retryable transport exception (`HTTPError`,
`MaxRetryError`, `TimeoutError`) was raised, or an unexpected exception
was raised. -/
inductive AttemptOutcome where
  | resp (status : Nat) (data : List Nat)
  | transportFail
  | unexpected

/-- An `urllib3` `HTTPResponse`, reduced to what the client reads: the
status and the raw byte body `response.data`. -/
structure HResp where
  status : Nat
  data : List Nat

/-- Result of `_request_with_retry`: the returned response (or `None`), the
client state after the call, the number of HTTP attempts made by the loop,
the number of `post_log` invocations, and the backoff sleeps performed (in
the same unit as `RETRY_DELAY`). -/
structure RWRResult where
  response : Option HResp
  stateAfter : Option JeeState
  attempts : Nat
  logCalls : Nat
  sleeps : List ℚ

/-- Bookkeeping for one retried transport failure: the recursive result with
one more attempt counted and the backoff sleep `d * (attempt + 1)`
(`time.sleep(RETRY_DELAY * (attempt + 1))`, line 163) recorded in front. -/
def addSleep (d : ℚ) (attempt : Nat) (r : RWRResult) : RWRResult :=
  ⟨r.response, r.stateAfter, r.attempts + 1, r.logCalls,
    d * ((attempt : ℚ) + 1) :: r.sleeps⟩

/-- The loop body of `JeedomClient._request_with_retry`
(`jeedom_client0.py`, lines 136-178), unrolled on the remaining fuel
(`fuel = maxR - attempt` at the top level).  On a response, a status
`>= 400` stores an error state and returns `None` at once; on a retryable
transport exception the loop sleeps `d * (attempt + 1)` and retries while
`attempt < maxR - 1`, and otherwise stores the network-error state and
returns `None`; on an unexpected exception it stores the general-error
state and returns `None`. -/
def rwrAux (env : Nat → AttemptOutcome) (ls : List (String × String))
    (maxR : Nat) (d : ℚ) (st : Option JeeState) :
    Nat → Nat → RWRResult
  | _, 0 => ⟨none, st, 0, 0, []⟩
  | attempt, fuel + 1 =>
      match env attempt with
      | AttemptOutcome.resp status data =>
          match handleHttpError ls status with
          | some msg => ⟨none, some (JeeState.error msg), 1, 1, []⟩
          | none => ⟨some ⟨status, data⟩, st, 1, 0, []⟩
      | AttemptOutcome.transportFail =>
          if attempt < maxR - 1 then
            addSleep d attempt (rwrAux env ls maxR d st (attempt + 1) fuel)
          else
            ⟨none,
              some (JeeState.error (langGet ls ERROR_NETWORK "Network error")),
              1, 1, []⟩
      | AttemptOutcome.unexpected =>
          ⟨none,
            some (JeeState.error (langGet ls ERROR_GENERAL "An error occurred")),
            1, 0, []⟩

/-- `JeedomClient._request_with_retry` (`jeedom_client0.py`, lines 117-178):
`for attempt in range(MAX_RETRIES)`. -/
def requestWithRetry (env : Nat → AttemptOutcome)
    (ls : List (String × String)) (maxR : Nat) (d : ℚ)
    (st : Option JeeState) : RWRResult :=
  rwrAux env ls maxR d st 0 maxR

/-- Environment whose first `failures` attempts raise a retryable transport
exception and whose later attempts deliver a response with the given status
and body. -/
def envN (failures status : Nat) (data : List Nat) : Nat → AttemptOutcome :=
  fun i =>
    if i < failures then AttemptOutcome.transportFail
    else AttemptOutcome.resp status data

/-- The exceptions that can be raised inside the `try` block of
`JeedomClient.get_question`: `response.data.decode("utf-8")` raising
`UnicodeDecodeError` on a non-UTF-8 body, `json.loads` failures, and
attribute access on a non-dict.  Only the last three kinds are named by
the `except (json.JSONDecodeError, KeyError, AttributeError)` clause at
line 220 (`KeyError` is listed there but `dict.get` never raises it);
`UnicodeDecodeError` is a `ValueError` but not a `json.JSONDecodeError`,
so the clause does not catch it. -/
inductive PyExc where
  | unicodeDecodeError
  | jsonDecodeError
  | keyError
  | attributeError
deriving DecidableEq

/-- Result of `get_question` (the boolean return value and the resulting
client state) or of the whole `post_event`/`get_question` HTTP exchange. -/
structure FetchResult where
  ok : Bool
  stateAfter : Option JeeState
  attempts : Nat
  logCalls : Nat

/-- The `try` block of `JeedomClient.get_question` (`jeedom_client0.py`,
lines 194-218), given the already-decoded body string:
`json.loads` the body (raising on failure), read `response_data.get("state")`
(raising `AttributeError` when the body is not an object), take the
missing-`state` branch when the value is falsy, decode a string-valued
`state` with `json.loads`, then read the five fields with `state.get`
(raising `AttributeError` when the value is not an object).  `loads` stands
for Python's `json.loads`, returning `none` when it would raise
`json.JSONDecodeError`. -/
def tryParseQuestion (loads : String → Option PyVal)
    (ls : List (String × String)) (data : String) :
    Except PyExc (Bool × Option JeeState) :=
  match loads data with
  | none => Except.error PyExc.jsonDecodeError
  | some doc =>
      match doc with
      | PyVal.dict kvs =>
          let state_data := dictGet kvs "state"
          if truthy state_data = false then
            Except.ok (false,
              some (JeeState.error
                (langGet ls ERROR_CONFIG "Configuration error")))
          else
            let decoded : Except PyExc PyVal :=
              match state_data with
              | PyVal.str s =>
                  match loads s with
                  | none => Except.error PyExc.jsonDecodeError
                  | some v => Except.ok v
              | v => Except.ok v
            match decoded with
            | Except.error e => Except.error e
            | Except.ok (PyVal.dict st) =>
                Except.ok (true,
                  some (JeeState.active
                    { event_id := dictGet st "event"
                      text := dictGet st "text"
                      suppress_confirmation :=
                        string_to_bool (dictGet st "suppress_confirmation")
                          false
                      deviceSerialNumber := dictGet st "deviceSerialNumber"
                      textBrut := dictGet st "textBrut" }))
            | Except.ok _ => Except.error PyExc.attributeError
      | _ => Except.error PyExc.attributeError

/-- The whole `try` block of `JeedomClient.get_question`
(`jeedom_client0.py`, lines 194-218), over the raw byte body: first
`response.data.decode("utf-8")` (raising `UnicodeDecodeError` when the
body is not valid UTF-8; `pydecode` stands for that decode, `none` meaning
the raise), then the string-level parse.  -/
def tryParseQuestionRaw (pydecode : List Nat → Option String)
    (loads : String → Option PyVal) (ls : List (String × String))
    (data : List Nat) : Except PyExc (Bool × Option JeeState) :=
  match pydecode data with
  | none => Except.error PyExc.unicodeDecodeError
  | some text => tryParseQuestion loads ls text

/-- `JeedomClient.get_question` (`jeedom_client0.py`, lines 180-225).  The
`Except` codomain records whether an exception escapes the method: the
`except (json.JSONDecodeError, KeyError, AttributeError)` clause at line
220 turns each of the three named exceptions into the parse-error state
and `False`, but a `UnicodeDecodeError` raised by
`response.data.decode("utf-8")` is not named there and propagates out of
the method. -/
def get_question (pydecode : List Nat → Option String)
    (loads : String → Option PyVal)
    (env : Nat → AttemptOutcome) (ls : List (String × String))
    (maxR : Nat) (d : ℚ) (st₀ : Option JeeState) :
    Except PyExc FetchResult :=
  let r := requestWithRetry env ls maxR d st₀
  match r.response with
  | none => Except.ok ⟨false, r.stateAfter, r.attempts, r.logCalls⟩
  | some resp =>
      match tryParseQuestionRaw pydecode loads ls resp.data with
      | Except.ok (b, st) => Except.ok ⟨b, st, r.attempts, r.logCalls⟩
      | Except.error PyExc.jsonDecodeError =>
          Except.ok ⟨false,
            some (JeeState.error
              (langGet ls ERROR_PARSE "Failed to parse response")),
            r.attempts, r.logCalls⟩
      | Except.error PyExc.keyError =>
          Except.ok ⟨false,
            some (JeeState.error
              (langGet ls ERROR_PARSE "Failed to parse response")),
            r.attempts, r.logCalls⟩
      | Except.error PyExc.attributeError =>
          Except.ok ⟨false,
            some (JeeState.error
              (langGet ls ERROR_PARSE "Failed to parse response")),
            r.attempts, r.logCalls⟩
      | Except.error PyExc.unicodeDecodeError =>
          Except.error PyExc.unicodeDecodeError

/-- Result of `post_event`: the value returned (always a Python `str` in the
reachable paths, carried as `PyVal` because the fallback branch reads the
dynamically-typed `jee_state.text`), the state after the call, the attempt
and `post_log` counts, the sleeps, and the POST body handed to the
transport (`none` when no request was attempted). -/
structure PostResult where
  spoken : PyVal
  stateAfter : Option JeeState
  attempts : Nat
  logCalls : Nat
  sleeps : List ℚ
  sentBody : Option (List (String × PyVal))

/-- `JeedomClient.post_event` (`jeedom_client0.py`, lines 227-278).  With no
state or an error state it returns the `ERROR_CONFIG` text at once.
Otherwise it builds the body (base fields, then `body.update(kwargs)`, then
`event_person_id` when an identity is available), sends it, and on a `None`
response returns `self.jee_state.text` — reading the state as
`_request_with_retry` left it.  On a response it clears the state and
returns the `OKAY` text, or the empty string under
`suppress_confirmation`. -/
def post_event (env : Nat → AttemptOutcome) (ls : List (String × String))
    (maxR : Nat) (d : ℚ) (st₀ : Option JeeState) (answer : String)
    (answerType : String) (kwargs : List (String × PyVal))
    (personId : Option String) (codeVers : PyVal) : PostResult :=
  match st₀ with
  | some (JeeState.active qs) =>
      let base : List (String × PyVal) :=
        [("event_id", qs.event_id),
         ("event_response", PyVal.str answer),
         ("event_response_type", PyVal.str answerType),
         ("deviceSerialNumber", qs.deviceSerialNumber),
         ("textBrut", qs.textBrut),
         ("code_version", codeVers)]
      let body := dictUpdate base kwargs
      let body :=
        match personId with
        | some p => dictSet body "event_person_id" (PyVal.str p)
        | none => body
      let r := requestWithRetry env ls maxR d st₀
      match r.response with
      | none =>
          let fallback :=
            match r.stateAfter with
            | some (JeeState.error t) => PyVal.str t
            | some (JeeState.active qs') => qs'.text
            | none => PyVal.none
          ⟨fallback, r.stateAfter, r.attempts, r.logCalls, r.sleeps,
            some body⟩
      | some _ =>
          if qs.suppress_confirmation then
            ⟨PyVal.str "", none, r.attempts, r.logCalls, r.sleeps, some body⟩
          else
            ⟨PyVal.str (langGet ls OKAY "OK"), none, r.attempts, r.logCalls,
              r.sleeps, some body⟩
  | _ =>
      ⟨PyVal.str (langGet ls ERROR_CONFIG "Error"), st₀, 0, 0, [], none⟩

/-- A `json.loads` that fails on every input (all bodies are invalid
JSON). -/
def loadsFail : String → Option PyVal := fun _ => none

/-- A concrete `bytes.decode("utf-8")` for the single-byte body `[66]`,
the ASCII text `"B"`. -/
def decodeB : List Nat → Option String := fun bs =>
  if bs = [66] then some "B" else none

/-- `bytes.decode("utf-8")` on bodies containing the byte `0xff`, which no
UTF-8 sequence contains: the decode raises (`none`). -/
def decodeFF : List Nat → Option String := fun bs =>
  if 255 ∈ bs then none else some ""

/-- A concrete `json.loads` for one body `"B"` decoding to
`{"state": {}}`: the decoded state object is empty, so it lacks every
field key. -/
def loadsEmptyState : String → Option PyVal := fun s =>
  if s = "B" then some (PyVal.dict [("state", PyVal.dict [])]) else none

/-- A concrete `json.loads` for one body `"B"` decoding to
`{"state": {"foo": 1}}`: the state object is non-empty but lacks the
`event`, `text`, `suppress_confirmation`, `deviceSerialNumber` and
`textBrut` keys. -/
def loadsFooState : String → Option PyVal := fun s =>
  if s = "B" then
    some (PyVal.dict [("state", PyVal.dict [("foo", PyVal.num 1)])])
  else none

/-- The active question of the specification's scenario: event `"42"`,
prompt `"Turn on the light?"`, confirmation not suppressed. -/
def qsLight : QuestionState :=
  ⟨PyVal.str "42", PyVal.str "Turn on the light?", false, PyVal.none,
    PyVal.none⟩

/-- The sleeps performed by attempts `a, a+1, ..., a+k-1` of the retry loop:
`[d*(a+1), d*(a+2), ..., d*(a+k)]`. -/
def sleepsList (d : ℚ) (a k : Nat) : List ℚ :=
  (List.range k).map (fun i : Nat => d * ((a : ℚ) + (i : ℚ) + 1))

theorem sleepsList_succ (d : ℚ) (a k : Nat) :
    sleepsList d a (k + 1) = d * ((a : ℚ) + 1) :: sleepsList d (a + 1) k := by
  unfold sleepsList
  rw [List.range_succ_eq_map, List.map_cons, List.map_map]
  congr 1
  · push_cast
    ring_nf
  · apply List.map_congr_left
    intro i _
    simp only [Function.comp_apply]
    push_cast
    ring

theorem handleHttpError_lt (ls : List (String × String)) (s : Nat)
    (h : s < 400) : handleHttpError ls s = none := by
  unfold handleHttpError
  rw [if_neg (by omega), if_neg (by omega), if_neg (by omega)]

/-- Behaviour of the retry loop against an environment whose first `N` calls
raise a retryable transport exception and whose later calls deliver a
response of status `s`. -/
theorem rwrAux_envN (N s : Nat) (data : List Nat) (ls : List (String × String))
    (maxR : Nat) (d : ℚ) (st : Option JeeState) :
    ∀ fuel attempt, attempt + fuel = maxR → 1 ≤ fuel →
    rwrAux (envN N s data) ls maxR d st attempt fuel =
      if N - attempt < fuel then
        match handleHttpError ls s with
        | some msg =>
            ⟨none, some (JeeState.error msg), (N - attempt) + 1, 1,
              sleepsList d attempt (N - attempt)⟩
        | none =>
            ⟨some ⟨s, data⟩, st, (N - attempt) + 1, 0,
              sleepsList d attempt (N - attempt)⟩
      else
        ⟨none,
          some (JeeState.error (langGet ls ERROR_NETWORK "Network error")),
          fuel, 1, sleepsList d attempt (fuel - 1)⟩ := by
  intro fuel
  induction fuel with
  | zero => intro attempt _ h1; exact absurd h1 (by omega)
  | succ f ih =>
      intro attempt hsum _
      by_cases hNa : attempt < N
      · have henv : envN N s data attempt = AttemptOutcome.transportFail := by
          simp [envN, hNa]
        simp only [rwrAux, henv]
        by_cases hf : 1 ≤ f
        · have hlt : attempt < maxR - 1 := by omega
          rw [if_pos hlt, ih (attempt + 1) (by omega) hf]
          have hNA : N - attempt = (N - (attempt + 1)) + 1 := by omega
          by_cases hrec : N - (attempt + 1) < f
          · rw [if_pos hrec, if_pos (by omega : N - attempt < f + 1)]
            cases hh : handleHttpError ls s with
            | some msg =>
                simp only [addSleep, hNA, sleepsList_succ]
            | none =>
                simp only [addSleep, hNA, sleepsList_succ]
          · rw [if_neg hrec, if_neg (by omega : ¬(N - attempt < f + 1))]
            rw [show f + 1 - 1 = (f - 1) + 1 by omega, sleepsList_succ]
            simp only [addSleep, RWRResult.mk.injEq]
        · have hf0 : f = 0 := by omega
          subst hf0
          rw [if_neg (by omega : ¬(attempt < maxR - 1)),
            if_neg (by omega : ¬(N - attempt < 0 + 1))]
          simp [sleepsList]
      · have h0 : N - attempt = 0 := by omega
        have henv : envN N s data attempt = AttemptOutcome.resp s data := by
          simp only [envN, if_neg (by omega : ¬(attempt < N))]
        simp only [rwrAux, henv, h0]
        rw [if_pos (by omega : (0 : Nat) < f + 1)]
        cases hh : handleHttpError ls s with
        | some msg => simp [hh, sleepsList]
        | none => simp [hh, sleepsList]

/-- `_request_with_retry` against `envN`: `N` failures then a response. -/
theorem requestWithRetry_envN (N s : Nat) (data : List Nat)
    (ls : List (String × String)) (maxR : Nat) (d : ℚ)
    (st : Option JeeState) (h : 1 ≤ maxR) :
    requestWithRetry (envN N s data) ls maxR d st =
      if N < maxR then
        match handleHttpError ls s with
        | some msg =>
            ⟨none, some (JeeState.error msg), N + 1, 1, sleepsList d 0 N⟩
        | none => ⟨some ⟨s, data⟩, st, N + 1, 0, sleepsList d 0 N⟩
      else
        ⟨none,
          some (JeeState.error (langGet ls ERROR_NETWORK "Network error")),
          maxR, 1, sleepsList d 0 (maxR - 1)⟩ := by
  have := rwrAux_envN N s data ls maxR d st maxR 0 (by omega) h
  simpa using this

/-- `_request_with_retry` when the response arrives with a non-error status
after `N` transport failures. -/
theorem requestWithRetry_success (N s : Nat) (data : List Nat)
    (ls : List (String × String)) (maxR : Nat) (d : ℚ)
    (st : Option JeeState) (hN : N < maxR) (hs : s < 400) :
    requestWithRetry (envN N s data) ls maxR d st =
      ⟨some ⟨s, data⟩, st, N + 1, 0, sleepsList d 0 N⟩ := by
  rw [requestWithRetry_envN N s data ls maxR d st (by omega), if_pos hN,
    handleHttpError_lt ls s hs]

/-- The backoff sleeps of a run starting at attempt 0 are strictly
increasing when the base delay is positive. -/
theorem sleepsList_pairwise (d : ℚ) (k : Nat) (hd : 0 < d) :
    (sleepsList d 0 k).Pairwise (fun x y => x < y) := by
  unfold sleepsList
  refine List.Pairwise.map _ ?_ (List.pairwise_lt_range k)
  intro a b hab
  have hab' : (a : ℚ) < (b : ℚ) := by exact_mod_cast hab
  nlinarith

/-- `_handle_http_error` produces exactly the messages of the branches
selected by `classifyStatus`: the status-to-kind abstraction and the
message-level source function agree. -/
theorem handleHttpError_classifyStatus (ls : List (String × String))
    (s : Nat) :
    handleHttpError ls s =
      (classifyStatus s).map (fun k =>
        match k with
        | ErrorKind.unauthorized =>
            "Error 401: " ++ langGet ls ERROR_401 "Authentication error"
        | ErrorKind.notFound =>
            "Error 404: " ++ langGet ls ERROR_404 "Resource not found"
        | _ =>
            "Error " ++ toString s ++ ": " ++
              langGet ls ERROR_400 "Request error") := by
  unfold handleHttpError classifyStatus
  by_cases h1 : s = 401
  · simp [h1]
  · by_cases h2 : s = 404
    · simp [h1, h2]
    · by_cases h3 : 400 ≤ s
      · simp [h1, h2, h3]
      · simp [h1, h2, h3]

/-- `dict.get(key, dflt)` returns either the default or a value stored in
the dictionary. -/
theorem langGet_mem (ls : List (String × String)) (key dflt : String) :
    langGet ls key dflt = dflt ∨ (key, langGet ls key dflt) ∈ ls := by
  unfold langGet
  induction ls with
  | nil => exact Or.inl rfl
  | cons p rest ih =>
      obtain ⟨k', v'⟩ := p
      cases hk : key == k' with
      | true =>
          have hkey : key = k' := by simpa using hk
          subst hkey
          simp [List.lookup]
      | false =>
          rcases ih with h | h
          · left
            simpa [List.lookup, hk] using h
          · right
            rw [List.mem_cons]
            right
            simpa [List.lookup, hk] using h

/-- `language_strings.get` with a non-empty default yields a non-empty
string whenever every stored localisation is non-empty. -/
theorem langGet_ne_empty (ls : List (String × String)) (key dflt : String)
    (h : ∀ p ∈ ls, p.2 ≠ "") (hd : dflt ≠ "") :
    langGet ls key dflt ≠ "" := by
  rcases langGet_mem ls key dflt with he | hm
  · rw [he]; exact hd
  · exact h _ hm

/-- C3 counterexample: at the concrete status 500 the source classifier
takes the generic request-error branch (`badRequest`), which is not the
`serverError` kind the claim requires for every status at least 500. -/
theorem claim_C3_counterexample :
    classifyStatus 500 = some ErrorKind.badRequest ∧
      some ErrorKind.badRequest ≠ some ErrorKind.serverError := by
  exact ⟨rfl, by decide⟩

/-- C3 (amended): the classifier maps 401 to `Unauthorized`, 404 to
`NotFound` and every other status at least 400 — the whole range at least
500 included — to the generic `BadRequest`; every status at least 400 gets
exactly one of these three kinds and `ServerError` is never produced. -/
theorem claim_C3_theorem (s : Nat) (h : 400 ≤ s) :
    classifyStatus s =
      some (if s = 401 then ErrorKind.unauthorized
        else if s = 404 then ErrorKind.notFound
        else ErrorKind.badRequest) ∧
      classifyStatus s ≠ some ErrorKind.serverError := by
  unfold classifyStatus
  by_cases h1 : s = 401
  · simp [h1]
  · by_cases h2 : s = 404
    · simp [h1, h2]
    · simp [h1, h2, h]

/-- C3 witness: the amended classifier claim evaluated at status 502. -/
theorem claim_C3_witness :
    classifyStatus 502 =
      some (if 502 = 401 then ErrorKind.unauthorized
        else if 502 = 404 then ErrorKind.notFound
        else ErrorKind.badRequest) ∧
      classifyStatus 502 ≠ some ErrorKind.serverError :=
  claim_C3_theorem 502 (by omega)

/-- C8 counterexample: the coercion maps the non-string input `True` (the
Python value of a JSON `true`) to `true`, where the claim requires `false`
for every non-string value. -/
theorem claim_C8_counterexample :
    string_to_bool (PyVal.bool true) false = true ∧ true ≠ false := by
  exact ⟨rfl, by decide⟩

/-- C8 (amended): case-insensitive "true"/"1"/"yes"/"oui" coerce to `true`
and every other string to `false`; a Python `bool` input is returned
unchanged (the one departure from the claim); every other non-string value
— null, numbers, lists, objects, and the spec's listed examples — yields
`false`. -/
theorem claim_C8_theorem :
    (∀ s : String,
      pyLower s = "true" ∨ pyLower s = "1" ∨ pyLower s = "yes" ∨
        pyLower s = "oui" → string_to_bool (PyVal.str s) false = true) ∧
    (∀ s : String,
      pyLower s ≠ "true" → pyLower s ≠ "1" → pyLower s ≠ "yes" →
        pyLower s ≠ "oui" → string_to_bool (PyVal.str s) false = false) ∧
    (∀ b : Bool, string_to_bool (PyVal.bool b) false = b) ∧
    (∀ v : PyVal, v.isStr = false → v.isBool = false →
      string_to_bool v false = false) ∧
    string_to_bool (PyVal.str "TRUE") false = true ∧
    string_to_bool (PyVal.str "false") false = false ∧
    string_to_bool (PyVal.str "") false = false ∧
    string_to_bool (PyVal.str "0") false = false ∧
    string_to_bool PyVal.none false = false ∧
    string_to_bool (PyVal.num 42) false = false := by
  refine ⟨?_, ?_, ?_, ?_, ?_, ?_, ?_, ?_, ?_, ?_⟩
  · intro s h
    unfold string_to_bool
    rcases h with h | h | h | h <;> simp [h]
  · intro s h1 h2 h3 h4
    unfold string_to_bool
    simp [h1, h2, h3, h4]
  · intro b; rfl
  · intro v h1 h2
    cases v <;> simp_all [string_to_bool, PyVal.isStr, PyVal.isBool]
  all_goals decide

/-- C8 witness: the amended coercion claim applied at `"True"` (an
affirmative string), `"no"` (any other string) and `[]` (a non-string,
non-bool value). -/
theorem claim_C8_witness :
    string_to_bool (PyVal.str "True") false = true ∧
    string_to_bool (PyVal.str "no") false = false ∧
    string_to_bool (PyVal.list []) false = false := by
  refine ⟨claim_C8_theorem.1 "True" ?_,
    claim_C8_theorem.2.1 "no" ?_ ?_ ?_ ?_,
    claim_C8_theorem.2.2.2.1 (PyVal.list []) rfl rfl⟩
  · exact Or.inl (by decide)
  all_goals decide

/-- C4: with no state or an `Error` state, `post_event` performs no
transport attempt and no log post, sends no body, leaves the state
unchanged, and returns the `ERROR_CONFIG` localisation (default `"Error"`),
which is non-empty whenever every entry of the localisation table is
non-empty. -/
theorem claim_C4_theorem (env : Nat → AttemptOutcome)
    (ls : List (String × String)) (maxR : Nat) (d : ℚ)
    (st₀ : Option JeeState) (answer answerType : String)
    (kwargs : List (String × PyVal)) (personId : Option String)
    (codeVers : PyVal)
    (h : st₀ = none ∨ ∃ t, st₀ = some (JeeState.error t)) :
    post_event env ls maxR d st₀ answer answerType kwargs personId codeVers =
      ⟨PyVal.str (langGet ls ERROR_CONFIG "Error"), st₀, 0, 0, [], none⟩ ∧
    ((∀ p ∈ ls, p.2 ≠ "") → langGet ls ERROR_CONFIG "Error" ≠ "") := by
  rcases h with h | ⟨t, h⟩ <;> subst h <;>
    exact ⟨rfl, fun hne => langGet_ne_empty _ _ _ hne (by decide)⟩

/-- C4 witness: posting against the error state `"boom"` with an empty
localisation table. -/
theorem claim_C4_witness :
    post_event (envN 0 200 []) [] 3 1 (some (JeeState.error "boom")) "yes"
        "YES" [] none (PyVal.str "1.0") =
      ⟨PyVal.str (langGet [] ERROR_CONFIG "Error"),
        some (JeeState.error "boom"), 0, 0, [], none⟩ ∧
    langGet [] ERROR_CONFIG "Error" ≠ "" := by
  have h := claim_C4_theorem (envN 0 200 []) [] 3 1
    (some (JeeState.error "boom")) "yes" "YES" [] none (PyVal.str "1.0")
    (Or.inr ⟨"boom", rfl⟩)
  exact ⟨h.1, h.2 (by intro p hp; simp at hp)⟩

/-- C9: whenever the transport returns a response (status below 400),
`post_event` clears the state to `None` whatever `suppress_confirmation`
is, and returns the `OKAY` acknowledgment (default `"OK"`) when
confirmation is not suppressed and the empty string when it is. -/
theorem claim_C9_theorem (env : Nat → AttemptOutcome)
    (ls : List (String × String)) (maxR : Nat) (d : ℚ)
    (qs : QuestionState) (answer answerType : String)
    (kwargs : List (String × PyVal)) (personId : Option String)
    (codeVers : PyVal)
    (h : (requestWithRetry env ls maxR d
        (some (JeeState.active qs))).response.isSome = true) :
    (post_event env ls maxR d (some (JeeState.active qs)) answer answerType
        kwargs personId codeVers).stateAfter = none ∧
    (post_event env ls maxR d (some (JeeState.active qs)) answer answerType
        kwargs personId codeVers).spoken =
      PyVal.str
        (if qs.suppress_confirmation then "" else langGet ls OKAY "OK") := by
  unfold post_event
  cases hr : (requestWithRetry env ls maxR d
      (some (JeeState.active qs))).response with
  | none => rw [hr] at h; simp at h
  | some resp =>
      simp only [hr]
      cases hs : qs.suppress_confirmation <;> simp [hs]

/-- C9 witness: a successful post of the scenario question with an
immediate 200 response. -/
theorem claim_C9_witness :
    (post_event (envN 0 200 []) [] 3 1 (some (JeeState.active qsLight))
        "yes" "YES" [] none (PyVal.str "1.0")).stateAfter = none ∧
    (post_event (envN 0 200 []) [] 3 1 (some (JeeState.active qsLight))
        "yes" "YES" [] none (PyVal.str "1.0")).spoken =
      PyVal.str
        (if qsLight.suppress_confirmation then ""
          else langGet [] OKAY "OK") :=
  claim_C9_theorem (envN 0 200 []) [] 3 1 qsLight "yes" "YES" [] none
    (PyVal.str "1.0") (by decide)

/-- C1 (code bug, evaluated at the failing input): with the active
"Turn on the light?" question, a POST answered by HTTP 500 makes
`_request_with_retry` overwrite `jee_state` with the status error before
`post_event` reads `jee_state.text` on the line commented
"Fallback to question text", so the call returns the error message
"Error 500: Request error" and leaves an `Error` state, where the claim
(and the source's own comment) expect the previously fetched prompt text
and an unchanged `Active` state. -/
theorem claim_C1_theorem :
    (post_event (envN 0 500 []) [] 3 1 (some (JeeState.active qsLight))
        "yes" "YES" [] none (PyVal.str "1.0")).spoken =
      PyVal.str "Error 500: Request error" ∧
    (post_event (envN 0 500 []) [] 3 1 (some (JeeState.active qsLight))
        "yes" "YES" [] none (PyVal.str "1.0")).stateAfter =
      some (JeeState.error "Error 500: Request error") ∧
    (post_event (envN 0 500 []) [] 3 1 (some (JeeState.active qsLight))
        "yes" "YES" [] none (PyVal.str "1.0")).attempts = 1 ∧
    "Error 500: Request error" ≠ "Turn on the light?" := by
  refine ⟨rfl, rfl, rfl, by decide⟩

/-- Assigning a key makes lookups of that key return the new value. -/
theorem dictGet_dictSet_self (b : List (String × PyVal)) (k : String)
    (v : PyVal) : dictGet (dictSet b k v) k = v := by
  induction b with
  | nil => simp [dictSet, dictGet, List.lookup]
  | cons p rest ih =>
      obtain ⟨k', v'⟩ := p
      by_cases h : k' = k
      · subst h
        simp [dictSet, dictGet, List.lookup]
      · simp only [dictSet, if_neg h]
        simpa [dictGet, List.lookup, beq_false_of_ne (Ne.symm h)] using ih

/-- Assigning a key leaves lookups of other keys unchanged. -/
theorem dictGet_dictSet_ne (b : List (String × PyVal)) (k' k : String)
    (v : PyVal) (h : k' ≠ k) : dictGet (dictSet b k' v) k = dictGet b k := by
  induction b with
  | nil => simp [dictSet, dictGet, List.lookup, beq_false_of_ne (Ne.symm h)]
  | cons p rest ih =>
      obtain ⟨k₀, v₀⟩ := p
      by_cases h0 : k₀ = k'
      · subst h0
        simp [dictSet, dictGet, List.lookup,
          beq_false_of_ne (Ne.symm h)]
      · simp only [dictSet, if_neg h0]
        by_cases hk : k₀ = k
        · subst hk
          simp [dictGet, List.lookup]
        · simpa [dictGet, List.lookup, beq_false_of_ne (Ne.symm hk)]
            using ih

/-- `dict.update` leaves keys it does not mention unchanged. -/
theorem dictGet_dictUpdate_notMem (kw : List (String × PyVal))
    (b : List (String × PyVal)) (k : String)
    (h : k ∉ kw.map Prod.fst) :
    dictGet (dictUpdate b kw) k = dictGet b k := by
  induction kw generalizing b with
  | nil => rfl
  | cons p rest ih =>
      obtain ⟨k₀, v₀⟩ := p
      simp only [List.map_cons, List.mem_cons] at h
      push_neg at h
      obtain ⟨h1, h2⟩ := h
      show dictGet (dictUpdate (dictSet b k₀ v₀) rest) k = dictGet b k
      rw [ih (dictSet b k₀ v₀) h2,
        dictGet_dictSet_ne b k₀ k v₀ (fun he => h1 he.symm)]

/-- `dict.update` makes every mentioned key map to the supplied value
(uniqueness of the update's keys mirrors Python's `**kwargs`). -/
theorem dictGet_dictUpdate_mem (kw : List (String × PyVal))
    (b : List (String × PyVal)) (k : String) (v : PyVal)
    (hnd : (kw.map Prod.fst).Nodup) (hmem : (k, v) ∈ kw) :
    dictGet (dictUpdate b kw) k = v := by
  induction kw generalizing b with
  | nil => simp at hmem
  | cons p rest ih =>
      obtain ⟨k₀, v₀⟩ := p
      simp only [List.map_cons, List.nodup_cons] at hnd
      obtain ⟨hk₀, hnd'⟩ := hnd
      rcases List.mem_cons.mp hmem with he | hm
      · cases he
        show dictGet (dictUpdate (dictSet b k v) rest) k = v
        rw [dictGet_dictUpdate_notMem rest (dictSet b k v) k hk₀,
          dictGet_dictSet_self]
      · show dictGet (dictUpdate (dictSet b k₀ v₀) rest) k = v
        exact ih (dictSet b k₀ v₀) hnd' hm

/-- The POST body handed to the transport by an active `post_event` is the
base body updated with the caller's extra fields, with `event_person_id`
assigned afterwards when an invocation-context person is available
(lines 249-262), whatever the transport outcome. -/
theorem post_event_sentBody (env : Nat → AttemptOutcome)
    (ls : List (String × String)) (maxR : Nat) (d : ℚ)
    (qs : QuestionState) (answer answerType : String)
    (kwargs : List (String × PyVal)) (personId : Option String)
    (codeVers : PyVal) :
    (post_event env ls maxR d (some (JeeState.active qs)) answer answerType
        kwargs personId codeVers).sentBody =
      some (match personId with
        | some p =>
            dictSet (dictUpdate
              [("event_id", qs.event_id),
               ("event_response", PyVal.str answer),
               ("event_response_type", PyVal.str answerType),
               ("deviceSerialNumber", qs.deviceSerialNumber),
               ("textBrut", qs.textBrut),
               ("code_version", codeVers)] kwargs)
              "event_person_id" (PyVal.str p)
        | none =>
            dictUpdate
              [("event_id", qs.event_id),
               ("event_response", PyVal.str answer),
               ("event_response_type", PyVal.str answerType),
               ("deviceSerialNumber", qs.deviceSerialNumber),
               ("textBrut", qs.textBrut),
               ("code_version", codeVers)] kwargs) := by
  unfold post_event
  cases personId with
  | none =>
      cases hr : (requestWithRetry env ls maxR d
          (some (JeeState.active qs))).response with
      | none => simp [hr]
      | some resp =>
          simp only [hr]
          cases hs : qs.suppress_confirmation <;> simp [hs]
  | some p =>
      cases hr : (requestWithRetry env ls maxR d
          (some (JeeState.active qs))).response with
      | none => simp [hr]
      | some resp =>
          simp only [hr]
          cases hs : qs.suppress_confirmation <;> simp [hs]

/-- C2 counterexample: an `extra_fields` entry named `event_id` does
overwrite the contractual `event_id` base field — the body sent carries
`"HACK"` instead of the active event id `"42"`. -/
theorem claim_C2_counterexample :
    dictGet ((post_event (envN 0 200 []) [] 3 1
        (some (JeeState.active qsLight)) "yes" "YES"
        [("event_id", PyVal.str "HACK")] none
        (PyVal.str "1.0")).sentBody.getD []) "event_id" =
      PyVal.str "HACK" ∧
    "HACK" ≠ "42" := by
  exact ⟨rfl, by decide⟩

/-- C2 (amended): `body.update(extra_fields)` lets the caller's extra
fields overwrite every base field, `event_id`, `event_response` and
`event_response_type` included; each of the three keeps its contractual
value exactly when `extra_fields` does not name it.  Every other key named
by `extra_fields` maps to the caller's value in the body sent, except
`event_person_id`: that key is assigned after the merge (lines 259-262),
so when an invocation identity is available it overwrites even a
caller-supplied entry, and when none is available every `extra_fields` key
keeps the caller's value. -/
theorem claim_C2_theorem (env : Nat → AttemptOutcome)
    (ls : List (String × String)) (maxR : Nat) (d : ℚ)
    (qs : QuestionState) (answer answerType : String)
    (kwargs : List (String × PyVal)) (personId : Option String)
    (codeVers : PyVal) :
    ("event_id" ∉ kwargs.map Prod.fst →
      dictGet ((post_event env ls maxR d (some (JeeState.active qs)) answer
          answerType kwargs personId codeVers).sentBody.getD [])
          "event_id" = qs.event_id) ∧
    ("event_response" ∉ kwargs.map Prod.fst →
      dictGet ((post_event env ls maxR d (some (JeeState.active qs)) answer
          answerType kwargs personId codeVers).sentBody.getD [])
          "event_response" = PyVal.str answer) ∧
    ("event_response_type" ∉ kwargs.map Prod.fst →
      dictGet ((post_event env ls maxR d (some (JeeState.active qs)) answer
          answerType kwargs personId codeVers).sentBody.getD [])
          "event_response_type" = PyVal.str answerType) ∧
    (∀ k v, (kwargs.map Prod.fst).Nodup → (k, v) ∈ kwargs →
      k ≠ "event_person_id" →
      dictGet ((post_event env ls maxR d (some (JeeState.active qs)) answer
          answerType kwargs personId codeVers).sentBody.getD []) k = v) ∧
    (∀ p, personId = some p →
      dictGet ((post_event env ls maxR d (some (JeeState.active qs)) answer
          answerType kwargs personId codeVers).sentBody.getD [])
          "event_person_id" = PyVal.str p) ∧
    (personId = none →
      ∀ k v, (kwargs.map Prod.fst).Nodup → (k, v) ∈ kwargs →
      dictGet ((post_event env ls maxR d (some (JeeState.active qs)) answer
          answerType kwargs personId codeVers).sentBody.getD []) k = v) := by
  rw [post_event_sentBody env ls maxR d qs answer answerType kwargs personId
    codeVers]
  simp only [Option.getD_some]
  cases personId with
  | none =>
      dsimp only
      refine ⟨?_, ?_, ?_, ?_, ?_, ?_⟩
      · intro h
        rw [dictGet_dictUpdate_notMem kwargs _ _ h]
        rfl
      · intro h
        rw [dictGet_dictUpdate_notMem kwargs _ _ h]
        rfl
      · intro h
        rw [dictGet_dictUpdate_notMem kwargs _ _ h]
        rfl
      · intro k v hnd hm _
        exact dictGet_dictUpdate_mem kwargs _ k v hnd hm
      · intro p hp
        exact Option.noConfusion hp
      · intro _ k v hnd hm
        exact dictGet_dictUpdate_mem kwargs _ k v hnd hm
  | some p =>
      dsimp only
      refine ⟨?_, ?_, ?_, ?_, ?_, ?_⟩
      · intro h
        rw [dictGet_dictSet_ne _ _ _ _
            (by decide : "event_person_id" ≠ "event_id"),
          dictGet_dictUpdate_notMem kwargs _ _ h]
        rfl
      · intro h
        rw [dictGet_dictSet_ne _ _ _ _
            (by decide : "event_person_id" ≠ "event_response"),
          dictGet_dictUpdate_notMem kwargs _ _ h]
        rfl
      · intro h
        rw [dictGet_dictSet_ne _ _ _ _
            (by decide : "event_person_id" ≠ "event_response_type"),
          dictGet_dictUpdate_notMem kwargs _ _ h]
        rfl
      · intro k v hnd hm hk
        rw [dictGet_dictSet_ne _ _ _ _ (Ne.symm hk)]
        exact dictGet_dictUpdate_mem kwargs _ k v hnd hm
      · intro q hq
        injection hq with hq'
        subst hq'
        exact dictGet_dictSet_self _ _ _
      · intro h0
        exact Option.noConfusion h0

/-- C2 witness: the amended body-merge claim at a concrete call with an
available identity `"P1"`, whose extra fields add a `room` entry and a
spoofed `event_person_id` entry and name none of the three contractual
keys. -/
theorem claim_C2_witness :
    dictGet ((post_event (envN 0 200 []) [] 3 1
        (some (JeeState.active qsLight)) "yes" "YES"
        [("room", PyVal.str "kitchen"),
         ("event_person_id", PyVal.str "spoof")] (some "P1")
        (PyVal.str "1.0")).sentBody.getD []) "event_id" =
      qsLight.event_id ∧
    dictGet ((post_event (envN 0 200 []) [] 3 1
        (some (JeeState.active qsLight)) "yes" "YES"
        [("room", PyVal.str "kitchen"),
         ("event_person_id", PyVal.str "spoof")] (some "P1")
        (PyVal.str "1.0")).sentBody.getD []) "room" =
      PyVal.str "kitchen" ∧
    dictGet ((post_event (envN 0 200 []) [] 3 1
        (some (JeeState.active qsLight)) "yes" "YES"
        [("room", PyVal.str "kitchen"),
         ("event_person_id", PyVal.str "spoof")] (some "P1")
        (PyVal.str "1.0")).sentBody.getD []) "event_person_id" =
      PyVal.str "P1" := by
  have h := claim_C2_theorem (envN 0 200 []) [] 3 1 qsLight "yes" "YES"
    [("room", PyVal.str "kitchen"),
     ("event_person_id", PyVal.str "spoof")] (some "P1") (PyVal.str "1.0")
  exact ⟨h.1 (by decide),
    h.2.2.2.1 "room" (PyVal.str "kitchen") (by decide) (List.Mem.head _)
      (by decide),
    h.2.2.2.2.1 "P1" rfl⟩

/-- Every status at least 400 selects one of the error branches of
`_handle_http_error`. -/
theorem handleHttpError_ge (ls : List (String × String)) (s : Nat)
    (h : 400 ≤ s) : ∃ m, handleHttpError ls s = some m := by
  unfold handleHttpError
  split_ifs with h1 h2
  · exact ⟨_, rfl⟩
  · exact ⟨_, rfl⟩
  · exact ⟨_, rfl⟩

/-- C5 counterexample: with `max_retries = 3` and a single transport
failure followed by success, the loop performs 2 HTTP attempts (the failed
one and the successful one), not `min(1, 3) = 1` as the claim counts. -/
theorem claim_C5_counterexample :
    (requestWithRetry (envN 1 200 []) [] 3 1 none).attempts = 2 ∧
      (2 : Nat) ≠ min 1 3 := by
  exact ⟨rfl, by decide⟩

/-- C5 (amended): under `N` consecutive transport failures the loop
performs exactly `min(N + 1, max_retries)` attempts — the successful
attempt, when one occurs, is also an attempt, so exactly `min(N,
max_retries)` of them fail; with `N ≥ max_retries` it stops after
`max_retries` attempts and reports failure (a `None` response and a
network-error state) instead of retrying indefinitely; it sleeps
`base_delay × attempt_number` (attempt_number starting at 1) between
consecutive attempts, and for a positive base delay the inter-attempt
delays are strictly increasing. -/
theorem claim_C5_theorem (N maxR : Nat) (d : ℚ)
    (ls : List (String × String)) (st₀ : Option JeeState)
    (h1 : 1 ≤ maxR) (hd : 0 < d) :
    (requestWithRetry (envN N 200 []) ls maxR d st₀).attempts =
      min (N + 1) maxR ∧
    (maxR ≤ N →
      (requestWithRetry (envN N 200 []) ls maxR d st₀).response = none ∧
      (requestWithRetry (envN N 200 []) ls maxR d st₀).stateAfter =
        some (JeeState.error (langGet ls ERROR_NETWORK "Network error"))) ∧
    (N < maxR →
      (requestWithRetry (envN N 200 []) ls maxR d st₀).response =
        some ⟨200, []⟩) ∧
    (requestWithRetry (envN N 200 []) ls maxR d st₀).sleeps =
      sleepsList d 0 (min N (maxR - 1)) ∧
    ((requestWithRetry (envN N 200 []) ls maxR d st₀).sleeps).Pairwise
      (fun x y => x < y) := by
  have hs : handleHttpError ls 200 = none :=
    handleHttpError_lt ls 200 (by omega)
  rw [requestWithRetry_envN N 200 [] ls maxR d st₀ h1, hs]
  by_cases hN : N < maxR
  · rw [if_pos hN]
    dsimp only
    refine ⟨by omega, fun hle => absurd hN (by omega), fun _ => rfl, ?_, ?_⟩
    · rw [show min N (maxR - 1) = N by omega]
    · exact sleepsList_pairwise d N hd
  · rw [if_neg hN]
    dsimp only
    refine ⟨by omega, fun _ => ⟨rfl, rfl⟩, fun hlt => absurd hlt hN, ?_, ?_⟩
    · rw [show min N (maxR - 1) = maxR - 1 by omega]
    · exact sleepsList_pairwise d (maxR - 1) hd

/-- C5 witness: five consecutive transport failures against
`max_retries = 3` and unit base delay. -/
theorem claim_C5_witness :
    (requestWithRetry (envN 5 200 []) [] 3 1 none).attempts =
      min (5 + 1) 3 ∧
    (3 ≤ 5 →
      (requestWithRetry (envN 5 200 []) [] 3 1 none).response = none ∧
      (requestWithRetry (envN 5 200 []) [] 3 1 none).stateAfter =
        some (JeeState.error (langGet [] ERROR_NETWORK "Network error"))) ∧
    (5 < 3 →
      (requestWithRetry (envN 5 200 []) [] 3 1 none).response =
        some ⟨200, []⟩) ∧
    (requestWithRetry (envN 5 200 []) [] 3 1 none).sleeps =
      sleepsList 1 0 (min 5 (3 - 1)) ∧
    ((requestWithRetry (envN 5 200 []) [] 3 1 none).sleeps).Pairwise
      (fun x y => x < y) :=
  claim_C5_theorem 5 3 1 [] none (by omega) (by norm_num)

/-- C6: when the `k`-th attempt (after `k` transport failures,
`k < max_retries`) yields a response with status at least 400, the loop
stops at exactly `k + 1` attempts — no retry for the status error, however
many attempts remain — returns `None` with the classified error message as
the state, and sleeps only the `k` backoff delays of the preceding
transport failures (none for the status error itself). -/
theorem claim_C6_theorem (k s : Nat) (data : List Nat)
    (ls : List (String × String)) (maxR : Nat) (d : ℚ)
    (st₀ : Option JeeState) (hk : k < maxR) (hs : 400 ≤ s) :
    (requestWithRetry (envN k s data) ls maxR d st₀).attempts = k + 1 ∧
    (requestWithRetry (envN k s data) ls maxR d st₀).response = none ∧
    (requestWithRetry (envN k s data) ls maxR d st₀).sleeps =
      sleepsList d 0 k ∧
    (∃ m, handleHttpError ls s = some m ∧
      (requestWithRetry (envN k s data) ls maxR d st₀).stateAfter =
        some (JeeState.error m)) := by
  obtain ⟨m, hm⟩ := handleHttpError_ge ls s hs
  rw [requestWithRetry_envN k s data ls maxR d st₀ (by omega), if_pos hk,
    hm]
  exact ⟨rfl, rfl, rfl, m, rfl, rfl⟩

/-- C6 witness: a 500 response on the very first attempt with two retry
attempts remaining. -/
theorem claim_C6_witness :
    (requestWithRetry (envN 0 500 []) [] 3 1 none).attempts = 0 + 1 ∧
    (requestWithRetry (envN 0 500 []) [] 3 1 none).response = none ∧
    (requestWithRetry (envN 0 500 []) [] 3 1 none).sleeps =
      sleepsList 1 0 0 ∧
    (∃ m, handleHttpError [] 500 = some m ∧
      (requestWithRetry (envN 0 500 []) [] 3 1 none).stateAfter =
        some (JeeState.error m)) :=
  claim_C6_theorem 0 500 [] [] 3 1 none (by omega) (by omega)

/-- An absent key yields Python `None` from `dict.get`. -/
theorem dictGet_notMem (st : List (String × PyVal)) (k : String)
    (h : k ∉ st.map Prod.fst) : dictGet st k = PyVal.none := by
  induction st with
  | nil => rfl
  | cons p rest ih =>
      obtain ⟨k₀, v₀⟩ := p
      simp only [List.map_cons, List.mem_cons] at h
      push_neg at h
      obtain ⟨h1, h2⟩ := h
      simpa [dictGet, List.lookup, beq_false_of_ne h1] using ih h2

/-- `get_question` over an environment that answers the first attempt with
a non-error status and a body that decodes to the given text: the result
is the parse of that text after a single attempt. -/
theorem get_question_success (pydecode : List Nat → Option String)
    (loads : String → Option PyVal) (s : Nat) (bytes : List Nat)
    (text : String) (ls : List (String × String)) (maxR : Nat) (d : ℚ)
    (st₀ : Option JeeState) (hmax : 1 ≤ maxR) (hs : s < 400)
    (hdec : pydecode bytes = some text) :
    get_question pydecode loads (envN 0 s bytes) ls maxR d st₀ =
      match tryParseQuestion loads ls text with
      | Except.ok (b, st) => Except.ok ⟨b, st, 1, 0⟩
      | Except.error PyExc.unicodeDecodeError =>
          Except.error PyExc.unicodeDecodeError
      | Except.error _ =>
          Except.ok ⟨false,
            some (JeeState.error
              (langGet ls ERROR_PARSE "Failed to parse response")), 1, 0⟩ := by
  unfold get_question tryParseQuestionRaw
  rw [requestWithRetry_success 0 s bytes ls maxR d st₀ (by omega) hs]
  dsimp only
  rw [hdec]
  dsimp only
  cases htp : tryParseQuestion loads ls text with
  | ok p => obtain ⟨b, st⟩ := p; rfl
  | error e => cases e <;> rfl

/-- The parse raises `AttributeError` when the decoded body is not an
object. -/
theorem tryParse_nonDict_body (loads : String → Option PyVal)
    (ls : List (String × String)) (data : String) (v : PyVal)
    (hld : loads data = some v) (hd : v.isDict = false) :
    tryParseQuestion loads ls data = Except.error PyExc.attributeError := by
  unfold tryParseQuestion
  rw [hld]
  cases v <;> simp_all [PyVal.isDict]

/-- The parse reports the configuration error when the `state` value is
falsy (absent, null, empty, zero or false). -/
theorem tryParse_falsy_state (loads : String → Option PyVal)
    (ls : List (String × String)) (data : String)
    (kvs : List (String × PyVal))
    (hld : loads data = some (PyVal.dict kvs))
    (htr : truthy (dictGet kvs "state") = false) :
    tryParseQuestion loads ls data =
      Except.ok (false,
        some (JeeState.error
          (langGet ls ERROR_CONFIG "Configuration error"))) := by
  unfold tryParseQuestion
  rw [hld]
  dsimp only
  rw [if_pos htr]

/-- The parse raises `JSONDecodeError` when the `state` value is a
non-empty string that does not decode. -/
theorem tryParse_strFail (loads : String → Option PyVal)
    (ls : List (String × String)) (data : String)
    (kvs : List (String × PyVal)) (s' : String)
    (hld : loads data = some (PyVal.dict kvs))
    (hst : dictGet kvs "state" = PyVal.str s') (hne : s' ≠ "")
    (hls : loads s' = none) :
    tryParseQuestion loads ls data =
      Except.error PyExc.jsonDecodeError := by
  unfold tryParseQuestion
  rw [hld]
  dsimp only
  rw [hst, if_neg (by simp [truthy, hne])]
  dsimp only
  rw [hls]

/-- The parse raises `AttributeError` when the `state` value is truthy but
neither a string nor an object. -/
theorem tryParse_nonDict_state (loads : String → Option PyVal)
    (ls : List (String × String)) (data : String)
    (kvs : List (String × PyVal)) (v : PyVal)
    (hld : loads data = some (PyVal.dict kvs))
    (hst : dictGet kvs "state" = v) (htr : truthy v = true)
    (hvs : v.isStr = false) (hvd : v.isDict = false) :
    tryParseQuestion loads ls data = Except.error PyExc.attributeError := by
  unfold tryParseQuestion
  rw [hld]
  dsimp only
  rw [hst, if_neg (by simp [htr])]
  cases v <;> simp_all [PyVal.isStr, PyVal.isDict]

/-- The parse raises `AttributeError` when the `state` string decodes to a
non-object. -/
theorem tryParse_strNonDict (loads : String → Option PyVal)
    (ls : List (String × String)) (data : String)
    (kvs : List (String × PyVal)) (s' : String) (w : PyVal)
    (hld : loads data = some (PyVal.dict kvs))
    (hst : dictGet kvs "state" = PyVal.str s') (hne : s' ≠ "")
    (hls : loads s' = some w) (hw : w.isDict = false) :
    tryParseQuestion loads ls data = Except.error PyExc.attributeError := by
  unfold tryParseQuestion
  rw [hld]
  dsimp only
  rw [hst, if_neg (by simp [truthy, hne])]
  dsimp only
  rw [hls]
  cases w <;> simp_all [PyVal.isDict]

/-- C7 (code bug, the uncaught decode): whenever the body of a successful
response is not valid UTF-8 — `response.data.decode("utf-8")` raises
`UnicodeDecodeError` on line 196 — the exception is not among those named
by the `except (json.JSONDecodeError, KeyError, AttributeError)` clause at
line 220 (it is a `ValueError`, not a `json.JSONDecodeError`) and escapes
`get_question`: the fetch raises an unhandled exception instead of
returning `False` with an `Error` state as the claim requires of every
malformed response body. -/
theorem claim_C7_theorem (pydecode : List Nat → Option String)
    (loads : String → Option PyVal) (ls : List (String × String))
    (maxR : Nat) (d : ℚ) (st₀ : Option JeeState) (s : Nat)
    (bytes : List Nat) (hmax : 1 ≤ maxR) (hs : s < 400)
    (hdec : pydecode bytes = none) :
    get_question pydecode loads (envN 0 s bytes) ls maxR d st₀ =
      Except.error PyExc.unicodeDecodeError := by
  unfold get_question tryParseQuestionRaw
  rw [requestWithRetry_success 0 s bytes ls maxR d st₀ (by omega) hs]
  dsimp only
  rw [hdec]

/-- C7 witness: the one-byte body `0xff` — valid in no UTF-8 text — behind
an HTTP 200 answer to the first attempt. -/
theorem claim_C7_witness :
    get_question decodeFF loadsFail (envN 0 200 [255]) [] 3 1 none =
      Except.error PyExc.unicodeDecodeError :=
  claim_C7_theorem decodeFF loadsFail [] 3 1 none 200 [255] (by omega)
    (by omega) (by decide)

/-- C10 counterexample: a question body (the UTF-8 bytes of `"B"`)
decoding to `{"state": {}}` — a decoded state object lacking the `event`
and `text` keys — makes `get_question` return `False` with a configuration
`Error` state (the empty object is falsy, so the missing-state branch
fires), not `True` with an `Active` state as the claim requires. -/
theorem claim_C10_counterexample :
    get_question decodeB loadsEmptyState (envN 0 200 [66]) [] 3 1 none =
      Except.ok ⟨false, some (JeeState.error "Configuration error"), 1, 0⟩ := by
  rfl

/-- C10 (amended): provided the decoded state object is non-empty (a falsy
`state` value — the empty object included — takes the missing-state error
branch instead), `get_question` returns `True` and installs an `Active`
state with Python `None` for each of the missing `event`, `text`,
`deviceSerialNumber` and `textBrut` keys and `False` for the missing
`suppress_confirmation`; an `Active` state with a null `event_id` is thus
reachable from the public fetch interface, and a subsequent post sends the
null `event_id` in its body. -/
theorem claim_C10_theorem (pydecode : List Nat → Option String)
    (loads : String → Option PyVal)
    (ls : List (String × String)) (maxR : Nat) (d : ℚ)
    (st₀ : Option JeeState) (s : Nat) (bytes : List Nat) (data : String)
    (kvs st : List (String × PyVal)) (ans answerType : String)
    (codeVers : PyVal)
    (hmax : 1 ≤ maxR) (hs : s < 400)
    (hdec : pydecode bytes = some data)
    (hld : loads data = some (PyVal.dict kvs))
    (hst : dictGet kvs "state" = PyVal.dict st)
    (hne : st.isEmpty = false)
    (hev : "event" ∉ st.map Prod.fst)
    (htx : "text" ∉ st.map Prod.fst)
    (hsc : "suppress_confirmation" ∉ st.map Prod.fst)
    (hds : "deviceSerialNumber" ∉ st.map Prod.fst)
    (htb : "textBrut" ∉ st.map Prod.fst) :
    get_question pydecode loads (envN 0 s bytes) ls maxR d st₀ =
      Except.ok ⟨true,
        some (JeeState.active
          ⟨PyVal.none, PyVal.none, false, PyVal.none, PyVal.none⟩), 1, 0⟩ ∧
    dictGet ((post_event (envN 0 s bytes) ls maxR d
        (some (JeeState.active
          ⟨PyVal.none, PyVal.none, false, PyVal.none, PyVal.none⟩))
        ans answerType [] none codeVers).sentBody.getD []) "event_id" =
      PyVal.none := by
  constructor
  · rw [get_question_success pydecode loads s bytes data ls maxR d st₀
      hmax hs hdec]
    have ht : tryParseQuestion loads ls data =
        Except.ok (true,
          some (JeeState.active
            ⟨PyVal.none, PyVal.none, false, PyVal.none, PyVal.none⟩)) := by
      unfold tryParseQuestion
      rw [hld]
      dsimp only
      rw [hst, if_neg (by simp [truthy, hne])]
      dsimp only
      rw [dictGet_notMem st "event" hev, dictGet_notMem st "text" htx,
        dictGet_notMem st "suppress_confirmation" hsc,
        dictGet_notMem st "deviceSerialNumber" hds,
        dictGet_notMem st "textBrut" htb]
      rfl
    rw [ht]
  · rw [post_event_sentBody (envN 0 s bytes) ls maxR d
      ⟨PyVal.none, PyVal.none, false, PyVal.none, PyVal.none⟩ ans answerType
      [] none codeVers]
    rfl

/-- C10 witness: the amended claim at the concrete body bytes `[66]`
decoding to `"B"`, which parses to `{"state": {"foo": 1}}` — a non-empty
state object lacking every expected key — followed by a post of `"yes"`. -/
theorem claim_C10_witness :
    get_question decodeB loadsFooState (envN 0 200 [66]) [] 3 1 none =
      Except.ok ⟨true,
        some (JeeState.active
          ⟨PyVal.none, PyVal.none, false, PyVal.none, PyVal.none⟩), 1, 0⟩ ∧
    dictGet ((post_event (envN 0 200 [66]) [] 3 1
        (some (JeeState.active
          ⟨PyVal.none, PyVal.none, false, PyVal.none, PyVal.none⟩))
        "yes" "YES" [] none (PyVal.str "1.0")).sentBody.getD [])
        "event_id" = PyVal.none :=
  claim_C10_theorem decodeB loadsFooState [] 3 1 none 200 [66] "B"
    [("state", PyVal.dict [("foo", PyVal.num 1)])] [("foo", PyVal.num 1)]
    "yes" "YES" (PyVal.str "1.0") (by omega) (by omega) (by decide) rfl rfl
    rfl (by decide) (by decide) (by decide) (by decide) (by decide)
